import Mathlib

/-!
Verification of `scripts/galaxy_spaxel_mstar.py` (galaxies-mzr repository).

The script extracts the per-spaxel stellar mass grid of one galaxy from the
Firefly catalog and writes it to CSV.  We shallowly embed its data flow:

* the bin-id grid `ind_binid = spaxel_binid[ind1, :, :, 0]` is a
  `List (List Int)`;
* the galaxy's mass column `mstar_all[ind1, :, 0]` is a `List ℚ` (no
  arithmetic is performed on the mass values, so exact rationals stand in
  for the floats; the missing-value marker NaN is modelled by `none` in
  `Option ℚ`);
* numpy integer fancy indexing is `npGet`: a non-negative index `i` is valid
  when `i < n`, a negative index is interpreted as `n + i` when `-n ≤ i`,
  and anything else raises `IndexError` (modelled by `none`);
* the gather-then-mask loop (lines 60-64 of the script) is `buildMstar`;
* the crop `mstar[:len_x, :len_x]` (line 71) is `crop`;
* `pd.DataFrame(...).to_csv(fout, index=False)` (lines 71-73) is
  `csvLines false true` — pandas writes the header row of default column
  labels unless `header=False` is passed, and the script does not pass it;
* `np.where(plateifus == args.plateifu)[0][0]` (line 56) is `resolveInd1`;
* the whole run, with the external Marvin cube fetch treated as a black-box
  `Except` input, is `runScript`; its outcome records whether `fin.close()`
  (line 77) was reached.
-/

/-- Errors a run can terminate with.  `indexError` is Python's
`IndexError` (out-of-bounds indexing fault); `notFound` models the
spec's proposed `NotFoundError`, which the script as written never
raises; `externalError` stands for whatever the external Marvin cube
service raises. -/
inductive ScriptError where
  | indexError : ScriptError
  | notFound : ScriptError
  | externalError : ScriptError
deriving DecidableEq, Repr

/-- numpy integer indexing into a 1-D array of length `n`: a non-negative
index must be `< n`; a negative index `i` aliases position `n + i` when
`-n ≤ i`; otherwise `IndexError` (`none`). -/
def npIdx (n : Nat) (i : Int) : Option Nat :=
  if 0 ≤ i then
    if i < (n : Int) then some i.toNat else none
  else
    if 0 ≤ (n : Int) + i then some ((n : Int) + i).toNat else none

/-- numpy gather of one element: `c[i]` with numpy negative-index
semantics; `none` is an `IndexError`. -/
def npGet (col : List ℚ) (i : Int) : Option ℚ :=
  match npIdx col.length i with
  | some j => col[j]?
  | none => none

/-- The gather `mstar_all[ind1, inds, 0]` for one row of bin ids: every
index is resolved with numpy semantics, and the whole gather faults
(`none`) if any single index is out of bounds. -/
def gatherRow (col : List ℚ) : List Int → Option (List ℚ)
  | [] => some []
  | i :: is =>
    match npGet col i, gatherRow col is with
    | some v, some vs => some (v :: vs)
    | _, _ => none

/-- The mask `mstar[row][ind_nans] = np.nan`: positions whose bin id is
exactly the sentinel `-99` are overwritten with NaN (`none`). -/
def maskRow : List Int → List ℚ → List (Option ℚ)
  | i :: is, v :: vs => (if i = -99 then none else some v) :: maskRow is vs
  | _, _ => []

/-- One iteration of the loop at lines 61-64: gather the mass values for a
row of bin ids, then mask the sentinel positions. -/
def buildRow (col : List ℚ) (inds : List Int) : Option (List (Option ℚ)) :=
  match gatherRow col inds with
  | some vs => some (maskRow inds vs)
  | none => none

/-- The whole gather-and-mask loop (lines 60-64): build the stellar-mass
grid row by row from the bin-id grid `g` and the galaxy's mass column `c`.
`none` means the run faulted with `IndexError` inside the loop. -/
def buildMstar (col : List ℚ) : List (List Int) → Option (List (List (Option ℚ)))
  | [] => some []
  | r :: rs =>
    match buildRow col r, buildMstar col rs with
    | some o, some os => some (o :: os)
    | _, _ => none

/-- The crop `mstar[:len_x, :len_x]` (line 71): numpy slicing clamps, so
each axis is truncated to at most `n` entries and never faults. -/
def crop (n : Nat) (g : List (List α)) : List (List α) :=
  (g.take n).map (fun r => r.take n)

/-- Cell lookup in a 2-D grid, for stating per-cell properties. -/
def cellAt (g : List (List α)) (i j : Nat) : Option α :=
  match g[i]? with
  | some r => r[j]?
  | none => none

/-- Textual rendering of one grid cell, NaN rendered as a token that
round-trip-parses as not-a-number.  The exact numeric format is
implementation-defined; the rational is printed exactly. -/
def renderCell : Option ℚ → String
  | none => "nan"
  | some q => if q.den = 1 then toString q.num else toString q

/-- The default column labels pandas gives a `DataFrame` built from a bare
2-D array: the integers `0, 1, ..., ncols-1`. -/
def headerLabels (ncols : Nat) : List String :=
  (List.range ncols).map toString

/-- Token rows of `pd.DataFrame(g).to_csv(..., index=indexFlag)` with
`header=headerFlag`: an optional header row of the default column labels
(preceded by an empty corner token when the index is written), then one
row per grid row, each optionally preceded by its positional index.
pandas defaults `header` to `True`; the script passes only
`index=False`. -/
def csvRows (indexFlag headerFlag : Bool) (g : List (List (Option ℚ))) : List (List String) :=
  let ncols := (g.headD []).length
  let hdr := if headerFlag then
      [if indexFlag then "" :: headerLabels ncols else headerLabels ncols]
    else []
  let body := if indexFlag then
      g.enum.map (fun p => toString p.1 :: p.2.map renderCell)
    else
      g.map (fun r => r.map renderCell)
  hdr ++ body

/-- The lines of the written CSV file: token rows joined with commas. -/
def csvLines (indexFlag headerFlag : Bool) (g : List (List (Option ℚ))) : List String :=
  (csvRows indexFlag headerFlag g).map (String.intercalate ",")

/-- `np.where(plateifus == args.plateifu)[0]`: the list of all row
positions whose identifier equals the query, in order (exact,
case-sensitive comparison). -/
def matchIdxs (ps : List String) (q : String) : List Nat :=
  (List.range ps.length).filter (fun i => ps[i]? = some q)

/-- Line 56, `np.where(plateifus == args.plateifu)[0][0]`: take the first
matching row position; on an empty match list the trailing `[0]` raises
`IndexError`. -/
def resolveInd1 (ps : List String) (q : String) : Except ScriptError Nat :=
  match matchIdxs ps q with
  | [] => Except.error ScriptError.indexError
  | i :: _ => Except.ok i

/-- One galaxy's slice of the three aligned Firefly catalog extensions:
its `PLATEIFU` identifier, its integer bin-id grid
`spaxel_binid[g, :, :, 0]`, and its mass column `mstar_all[g, :, 0]`. -/
structure Galaxy where
  plateifu : String
  binid : List (List Int)
  mstarCol : List ℚ
deriving Repr

/-- Outcome of one run: the lines written to the CSV file (or the error
the process terminated with), and whether `fin.close()` (line 77) was
executed before termination. -/
structure RunOutcome where
  result : Except ScriptError (List String)
  handleClosed : Bool
deriving Repr

/-- The whole script after `fits.open` succeeds, for catalog `cat`,
requested identifier `q`, and black-box outcome `fetch` of the Marvin
cube query for `len_x` (spec 4.4 treats that collaborator as opaque).
The script is straight-line code with no handler: any fault terminates
the run before `fin.close()` is reached. -/
def runScript (cat : List Galaxy) (q : String) (fetch : Except ScriptError Nat) : RunOutcome :=
  match resolveInd1 (cat.map Galaxy.plateifu) q with
  | Except.error e => ⟨Except.error e, false⟩
  | Except.ok ind1 =>
    let gal := cat.getD ind1 ⟨"", [], []⟩
    match buildMstar gal.mstarCol gal.binid with
    | none => ⟨Except.error ScriptError.indexError, false⟩
    | some mstar =>
      match fetch with
      | Except.error e => ⟨Except.error e, false⟩
      | Except.ok lenx => ⟨Except.ok (csvLines false true (crop lenx mstar)), true⟩

/-- Characterization of a successful row gather: it preserves length and
each position holds the numpy lookup of its bin id. -/
theorem gatherRow_spec (col : List ℚ) (r : List Int) (vs : List ℚ)
    (h : gatherRow col r = some vs) :
    vs.length = r.length ∧ ∀ (j : Nat) (id : Int), r[j]? = some id → vs[j]? = npGet col id := by
  induction r generalizing vs with
  | nil =>
    simp [gatherRow] at h
    subst h
    exact ⟨rfl, fun j id hj => by simp at hj⟩
  | cons i is ih =>
    unfold gatherRow at h
    cases hg : npGet col i with
    | none => rw [hg] at h; simp at h
    | some v =>
      rw [hg] at h
      cases hrest : gatherRow col is with
      | none => rw [hrest] at h; simp at h
      | some ws =>
        rw [hrest] at h
        simp only [Option.some.injEq] at h
        subst h
        obtain ⟨hlen, hcell⟩ := ih ws hrest
        refine ⟨by simp [hlen], fun j id hj => ?_⟩
        cases j with
        | zero =>
          simp only [List.getElem?_cons_zero, Option.some.injEq] at hj
          subst hj
          simp [hg]
        | succ j =>
          simp only [List.getElem?_cons_succ] at hj ⊢
          exact hcell j id hj

/-- Characterization of the sentinel mask: length preserved, sentinel
positions become NaN, the rest keep their gathered value. -/
theorem maskRow_spec (r : List Int) (vs : List ℚ) (hlen : vs.length = r.length) :
    (maskRow r vs).length = r.length ∧
    ∀ (j : Nat) (id : Int) (v : ℚ), r[j]? = some id → vs[j]? = some v →
      (maskRow r vs)[j]? = some (if id = -99 then none else some v) := by
  induction r generalizing vs with
  | nil =>
    cases vs with
    | nil => exact ⟨rfl, fun j id v hj _ => by simp at hj⟩
    | cons v vs => simp at hlen
  | cons i is ih =>
    cases vs with
    | nil => simp at hlen
    | cons v vs =>
      simp only [List.length_cons, Nat.succ.injEq] at hlen
      obtain ⟨hlen2, hcell⟩ := ih vs hlen
      refine ⟨by simp [maskRow, hlen2], fun j id w hj hv => ?_⟩
      cases j with
      | zero =>
        simp only [List.getElem?_cons_zero, Option.some.injEq] at hj hv
        subst hj; subst hv
        simp [maskRow]
      | succ j =>
        simp only [List.getElem?_cons_succ] at hj hv
        simpa [maskRow] using hcell j id w hj hv

/-- Characterization of one successful loop iteration: on success every
bin id of the row was within numpy bounds, and each output cell is NaN
exactly at sentinel positions and the gathered value elsewhere. -/
theorem buildRow_spec (col : List ℚ) (r : List Int) (o : List (Option ℚ))
    (h : buildRow col r = some o) :
    o.length = r.length ∧
    ∀ (j : Nat) (id : Int), r[j]? = some id →
      (∃ v, npGet col id = some v) ∧
      o[j]? = some (if id = -99 then none else npGet col id) := by
  unfold buildRow at h
  cases hg : gatherRow col r with
  | none => rw [hg] at h; simp at h
  | some vs =>
    rw [hg] at h
    simp only [Option.some.injEq] at h
    subst h
    obtain ⟨hglen, hgcell⟩ := gatherRow_spec col r vs hg
    obtain ⟨hmlen, hmcell⟩ := maskRow_spec r vs hglen
    refine ⟨hmlen, fun j id hj => ?_⟩
    have hvs := hgcell j id hj
    have hjlt : j < r.length := (List.getElem?_eq_some.mp hj).1
    cases hnp : npGet col id with
    | none =>
      rw [hnp] at hvs
      have hjv : j < vs.length := by omega
      rw [List.getElem?_eq_getElem hjv] at hvs
      exact absurd hvs (by simp)
    | some v =>
      rw [hnp] at hvs
      exact ⟨⟨v, rfl⟩, by rw [hmcell j id v hj hvs]⟩

/-- Characterization of the successful gather-and-mask loop: one output
row per bin-id row, each produced by `buildRow`. -/
theorem buildMstar_spec (col : List ℚ) (g : List (List Int)) (out : List (List (Option ℚ)))
    (h : buildMstar col g = some out) :
    out.length = g.length ∧
    ∀ (i : Nat) (r : List Int), g[i]? = some r →
      ∃ o, out[i]? = some o ∧ buildRow col r = some o := by
  induction g generalizing out with
  | nil =>
    simp [buildMstar] at h
    subst h
    exact ⟨rfl, fun i r hi => by simp at hi⟩
  | cons r rs ih =>
    unfold buildMstar at h
    cases hr : buildRow col r with
    | none => rw [hr] at h; simp at h
    | some o =>
      rw [hr] at h
      cases hrest : buildMstar col rs with
      | none => rw [hrest] at h; simp at h
      | some os =>
        rw [hrest] at h
        simp only [Option.some.injEq] at h
        subst h
        obtain ⟨hlen, hrow⟩ := ih os hrest
        refine ⟨by simp [hlen], fun i r0 hi => ?_⟩
        cases i with
        | zero =>
          simp only [List.getElem?_cons_zero, Option.some.injEq] at hi
          subst hi
          exact ⟨o, by simp, hr⟩
        | succ i =>
          simp only [List.getElem?_cons_succ] at hi ⊢
          exact hrow i r0 hi

/-- A row gather succeeds when every bin id of the row is within numpy
bounds. -/
theorem gatherRow_total (col : List ℚ) (r : List Int)
    (h : ∀ id ∈ r, npGet col id ≠ none) :
    ∃ vs, gatherRow col r = some vs := by
  induction r with
  | nil => exact ⟨[], rfl⟩
  | cons i is ih =>
    obtain ⟨vs, hvs⟩ := ih (fun id hid => h id (List.mem_cons_of_mem _ hid))
    have hi := h i (List.mem_cons_self _ _)
    cases hg : npGet col i with
    | none => exact absurd hg hi
    | some v => exact ⟨v :: vs, by simp [gatherRow, hg, hvs]⟩

/-- The gather-and-mask loop succeeds when every bin id of the grid is
within numpy bounds. -/
theorem buildMstar_total (col : List ℚ) (g : List (List Int))
    (h : ∀ r ∈ g, ∀ id ∈ r, npGet col id ≠ none) :
    ∃ out, buildMstar col g = some out := by
  induction g with
  | nil => exact ⟨[], rfl⟩
  | cons r rs ih =>
    obtain ⟨os, hos⟩ := ih (fun r0 hr0 => h r0 (List.mem_cons_of_mem _ hr0))
    obtain ⟨vs, hvs⟩ := gatherRow_total col r (h r (List.mem_cons_self _ _))
    exact ⟨maskRow r vs :: os, by simp [buildMstar, buildRow, hvs, hos]⟩

/-- numpy lookup at a valid non-negative index is plain indexing. -/
theorem npGet_nonneg_eq (col : List ℚ) (id : Int) (h0 : 0 ≤ id) (hlt : id < (col.length : Int)) :
    npGet col id = col[id.toNat]? := by
  simp [npGet, npIdx, h0, hlt]

/-- numpy lookup at a valid non-negative index does not fault. -/
theorem npGet_nonneg_ne_none (col : List ℚ) (id : Int) (h0 : 0 ≤ id)
    (hlt : id < (col.length : Int)) : npGet col id ≠ none := by
  rw [npGet_nonneg_eq col id h0 hlt]
  have : id.toNat < col.length := by omega
  rw [List.getElem?_eq_getElem this]
  simp

/-- numpy lookup at an in-range negative index aliases from the end. -/
theorem npGet_neg_eq (col : List ℚ) (id : Int) (hneg : id < 0)
    (hge : 0 ≤ (col.length : Int) + id) :
    npGet col id = col[((col.length : Int) + id).toNat]? := by
  have h0 : ¬ 0 ≤ id := by omega
  simp [npGet, npIdx, h0, hge]

/-- numpy lookup at an in-range negative index does not fault. -/
theorem npGet_neg_ne_none (col : List ℚ) (id : Int) (hneg : id < 0)
    (hge : 0 ≤ (col.length : Int) + id) : npGet col id ≠ none := by
  rw [npGet_neg_eq col id hneg hge]
  have : ((col.length : Int) + id).toNat < col.length := by omega
  rw [List.getElem?_eq_getElem this]
  simp

/-- A successful numpy lookup at a negative index was in range and read
the position `length + id` counted from the end. -/
theorem npGet_neg_mem (col : List ℚ) (id : Int) (v : ℚ) (hneg : id < 0)
    (h : npGet col id = some v) :
    0 ≤ (col.length : Int) + id ∧ col[((col.length : Int) + id).toNat]? = some v := by
  have h0 : ¬ 0 ≤ id := by omega
  unfold npGet npIdx at h
  rw [if_neg h0] at h
  by_cases hge : 0 ≤ (col.length : Int) + id
  · rw [if_pos hge] at h
    exact ⟨hge, h⟩
  · rw [if_neg hge] at h
    simp at h

/-- Claim C1 (amended): whenever the gather-and-mask loop completes, the
mass grid it builds has the bin-id grid's shape, every cell whose bin id
is the sentinel -99 holds the missing-value marker NaN, and every other
cell holds the numpy gather `mass_column[bin_id]` (mass field only; a
negative in-range id aliases from the end).  The claim's unrestricted
quantification fails: the loop gathers before masking, so a grid whose
sentinel is out of numpy bounds for the mass column faults and produces
no grid at all (see the counterexample). -/
theorem buildMstar_gather_mask (col : List ℚ) (g : List (List Int))
    (out : List (List (Option ℚ))) (h : buildMstar col g = some out) :
    out.length = g.length ∧
    ∀ (i j : Nat) (id : Int), cellAt g i j = some id →
      cellAt out i j = some (if id = -99 then none else npGet col id) := by
  obtain ⟨hlen, hrow⟩ := buildMstar_spec col g out h
  refine ⟨hlen, fun i j id hij => ?_⟩
  unfold cellAt at hij ⊢
  cases hgi : g[i]? with
  | none => rw [hgi] at hij; simp at hij
  | some r =>
    rw [hgi] at hij
    obtain ⟨o, ho, hbr⟩ := hrow i r hgi
    rw [ho]
    exact (buildRow_spec col r o hbr).2 j id hij |>.2

/-- Witness for C1: a concrete completed build satisfying the theorem's
hypothesis. -/
theorem buildMstar_gather_mask_w :
    ([[some (5 : ℚ)]] : List (List (Option ℚ))).length = ([[(0 : Int)]] : List (List Int)).length ∧
    ∀ (i j : Nat) (id : Int), cellAt ([[(0 : Int)]] : List (List Int)) i j = some id →
      cellAt [[some (5 : ℚ)]] i j = some (if id = -99 then none else npGet [5] id) :=
  buildMstar_gather_mask [5] [[0]] [[some 5]] rfl

/-- Counterexample for C1 as stated: with mass column `[5.0]` and bin-id
grid `[[-99]]` the builder produces no grid at all — the gather runs
before the mask and `-99` is out of numpy bounds for a length-1 column,
so the loop faults with `IndexError`. -/
theorem buildMstar_cex_sentinel :
    ¬ ∃ out, buildMstar [(5 : ℚ)] [[-99]] = some out := by
  rintro ⟨out, h⟩
  rw [show buildMstar [(5 : ℚ)] [[-99]] = none from rfl] at h
  exact Option.noConfusion h

/-- Claim C3 (confirmed): for a bin-id grid with no sentinel cells whose
bin ids are all valid indices into the mass column, the gather-and-mask
loop completes and the derived mass grid contains no missing-value
markers. -/
theorem noSentinel_noNaN (col : List ℚ) (g : List (List Int))
    (hns : ∀ r ∈ g, ∀ id ∈ r, id ≠ -99)
    (hvalid : ∀ r ∈ g, ∀ id ∈ r, 0 ≤ id ∧ id < (col.length : Int)) :
    ∃ out, buildMstar col g = some out ∧ ∀ orow ∈ out, ∀ cell ∈ orow, cell ≠ none := by
  obtain ⟨out, hout⟩ := buildMstar_total col g (fun r hr id hid =>
    npGet_nonneg_ne_none col id (hvalid r hr id hid).1 (hvalid r hr id hid).2)
  refine ⟨out, hout, fun orow horow cell hcell => ?_⟩
  obtain ⟨hlen, hrow⟩ := buildMstar_spec col g out hout
  obtain ⟨i, hi⟩ := List.mem_iff_getElem?.mp horow
  have hilt : i < out.length := (List.getElem?_eq_some.mp hi).1
  have higl : i < g.length := by omega
  obtain ⟨o, ho, hbr⟩ := hrow i g[i] (List.getElem?_eq_getElem higl)
  rw [hi] at ho
  have hoo : orow = o := Option.some.inj ho
  subst hoo
  obtain ⟨holen, hocell⟩ := buildRow_spec col g[i] orow hbr
  obtain ⟨j, hj⟩ := List.mem_iff_getElem?.mp hcell
  have hjlt : j < orow.length := (List.getElem?_eq_some.mp hj).1
  have hjr : j < g[i].length := by omega
  have hrj : (g[i])[j]? = some (g[i])[j] := List.getElem?_eq_getElem hjr
  obtain ⟨⟨v, hv⟩, hcellj⟩ := hocell j (g[i])[j] hrj
  have hid_mem : (g[i])[j] ∈ g[i] := List.getElem_mem hjr
  have hr_mem : g[i] ∈ g := List.getElem_mem higl
  have h99 : (g[i])[j] ≠ -99 := hns g[i] hr_mem (g[i])[j] hid_mem
  rw [if_neg h99] at hcellj
  rw [hj] at hcellj
  have : cell = npGet col (g[i])[j] := Option.some.inj hcellj
  rw [this, hv]
  simp

/-- Witness for C3 at a concrete sentinel-free grid. -/
theorem noSentinel_noNaN_w :
    (∀ r ∈ ([[0, 1], [1, 0]] : List (List Int)), ∀ id ∈ r, id ≠ -99) ∧
    ∃ out, buildMstar [(5 : ℚ), 7] [[0, 1], [1, 0]] = some out ∧
      ∀ orow ∈ out, ∀ cell ∈ orow, cell ≠ none :=
  ⟨by decide, noSentinel_noNaN [5, 7] [[0, 1], [1, 0]] (by decide) (by decide)⟩

/-- Claim C4 (amended): the gather-and-mask step completes without
faulting when every non-sentinel bin id is a valid index into the mass
column and, additionally, the mass column has at least 99 entries
whenever a sentinel occurs (numpy reads `-99` as position
`length - 99` before the mask discards it).  It is a pure function, so
it performs no I/O by construction.  The claim as stated — sentinels
permitted anywhere regardless of column length — is refuted by the
counterexample. -/
theorem gatherMask_total (col : List ℚ) (g : List (List Int))
    (hvalid : ∀ r ∈ g, ∀ id ∈ r, id ≠ -99 → 0 ≤ id ∧ id < (col.length : Int))
    (hsent : (∃ r ∈ g, (-99 : Int) ∈ r) → 99 ≤ col.length) :
    ∃ out, buildMstar col g = some out :=
  buildMstar_total col g (fun r hr id hid => by
    by_cases h99 : id = -99
    · subst h99
      have hn : 99 ≤ col.length := hsent ⟨r, hr, hid⟩
      exact npGet_neg_ne_none col (-99) (by omega) (by omega)
    · obtain ⟨h0, hlt⟩ := hvalid r hr id hid h99
      exact npGet_nonneg_ne_none col id h0 hlt)

/-- Witness for C4: a 99-entry mass column and a grid containing a
sentinel, on which the step completes. -/
theorem gatherMask_total_w :
    (∀ r ∈ ([[0, -99]] : List (List Int)), ∀ id ∈ r, id ≠ -99 →
      0 ≤ id ∧ id < ((List.replicate 99 (5 : ℚ)).length : Int)) ∧
    ∃ out, buildMstar (List.replicate 99 (5 : ℚ)) [[0, -99]] = some out :=
  ⟨by decide, gatherMask_total (List.replicate 99 (5 : ℚ)) [[0, -99]] (by decide)
    (fun _ => by decide)⟩

/-- Counterexample for C4 as stated: every non-sentinel bin id of
`[[0, -99]]` is a valid index into the length-2 mass column, yet the
step faults (`-99` is out of numpy bounds for 2 entries). -/
theorem gatherMask_cex :
    (∀ r ∈ ([[0, -99]] : List (List Int)), ∀ id ∈ r, id ≠ -99 →
      0 ≤ id ∧ id < ((2 : Nat) : Int)) ∧
    buildMstar [(5 : ℚ), 7] [[0, -99]] = none :=
  ⟨by decide, rfl⟩

/-- Counterexample for C5 as stated: requesting an identifier absent
from the catalog fails with Python's `IndexError` from the `[0]` on an
empty match array, not with a `NotFoundError`. -/
theorem resolve_absent_cex :
    resolveInd1 ["8485-1901"] "7443-1901" ≠ Except.error ScriptError.notFound ∧
    resolveInd1 ["8485-1901"] "7443-1901" = Except.error ScriptError.indexError := by
  constructor
  · rw [show resolveInd1 ["8485-1901"] "7443-1901" = Except.error ScriptError.indexError from rfl]
    intro h
    exact ScriptError.noConfusion (Except.error.inj h)
  · rfl

/-- Claim C5 (amended): for every galaxy identifier absent from the
catalog's identifier column, index resolution fails loudly with an
out-of-bounds indexing fault (`IndexError`) — it neither returns
silently nor produces a result, but the error is not the reportable
`NotFoundError` the spec prescribes. -/
theorem resolve_absent_faults (ps : List String) (q : String) (h : q ∉ ps) :
    resolveInd1 ps q = Except.error ScriptError.indexError := by
  have hempty : matchIdxs ps q = [] := by
    rw [matchIdxs, List.filter_eq_nil_iff]
    intro i _
    simp only [decide_eq_true_eq]
    intro hq
    exact h (List.getElem?_mem hq)
  rw [resolveInd1, hempty]

/-- Witness for C5 at a concrete one-galaxy catalog. -/
theorem resolve_absent_faults_w :
    ("7443-1901" ∉ ["8485-1901"]) ∧
    resolveInd1 ["8485-1901"] "7443-1901" = Except.error ScriptError.indexError :=
  ⟨by decide, resolve_absent_faults ["8485-1901"] "7443-1901" (by decide)⟩

/-- Claim C6 (amended): when the gather-and-mask loop completes, the
mass grid has exactly the bin-id grid's shape before cropping; after
cropping each axis equals the minimum of the reference dimension and the
original extent — numpy slicing clamps rather than faults, so the axes
equal the reference dimension only when it does not exceed the grid. -/
theorem shape_invariant (col : List ℚ) (g : List (List Int))
    (out : List (List (Option ℚ))) (lenx : Nat) (h : buildMstar col g = some out) :
    out.length = g.length ∧
    (∀ (i : Nat) (r : List Int) (orow : List (Option ℚ)),
      g[i]? = some r → out[i]? = some orow → orow.length = r.length) ∧
    (crop lenx out).length = min lenx out.length ∧
    (∀ (i : Nat) (orow crow : List (Option ℚ)),
      out[i]? = some orow → (crop lenx out)[i]? = some crow →
        crow.length = min lenx orow.length) := by
  obtain ⟨hlen, hrow⟩ := buildMstar_spec col g out h
  refine ⟨hlen, fun i r orow hgi hoi => ?_, ?_, fun i orow crow hoi hci => ?_⟩
  · obtain ⟨o, ho, hbr⟩ := hrow i r hgi
    rw [hoi] at ho
    rw [Option.some.inj ho]
    exact (buildRow_spec col r o hbr).1
  · simp [crop, List.length_take]
  · by_cases hilt : i < lenx
    · rw [crop, List.getElem?_map, List.getElem?_take_of_lt hilt, hoi] at hci
      simp only [Option.map_some', Option.some.injEq] at hci
      rw [← hci, List.length_take]
    · have : (crop lenx out).length ≤ i := by
        rw [crop, List.length_map, List.length_take]
        omega
      rw [List.getElem?_eq_none this] at hci
      exact Option.noConfusion hci

/-- Witness for C6 at a concrete build and crop. -/
theorem shape_invariant_w :
    buildMstar [(5 : ℚ)] [[0]] = some [[some 5]] ∧
    ([[some (5 : ℚ)]] : List (List (Option ℚ))).length = ([[(0 : Int)]] : List (List Int)).length ∧
    (crop 2 [[some (5 : ℚ)]]).length = min 2 ([[some (5 : ℚ)]] : List (List (Option ℚ))).length :=
  ⟨rfl, (shape_invariant [5] [[0]] [[some 5]] 2 rfl).1,
    (shape_invariant [5] [[0]] [[some 5]] 2 rfl).2.2.1⟩

/-- Counterexample for C6 as stated: cropping the 1x1 mass grid of
`[[0]]` to reference dimension 2 leaves a 1x1 grid, so after cropping
the axes do not equal the reference dimension. -/
theorem shape_cex :
    buildMstar [(5 : ℚ)] [[0]] = some [[some 5]] ∧
    (crop 2 [[some (5 : ℚ)]]).length = 1 ∧ (1 : Nat) ≠ 2 :=
  ⟨rfl, rfl, by decide⟩

/-- Claim C7 (confirmed): for any reference dimension `n` not exceeding
either extent of the grid, the crop keeps exactly the top-left `n` x `n`
sub-grid — `n` rows of `n` cells with every cell value preserved — and
when `n` equals the grid's size the crop returns the grid unchanged. -/
theorem crop_topLeft {α : Type} (g : List (List α)) (n : Nat)
    (hrows : n ≤ g.length) (hcols : ∀ r ∈ g, n ≤ r.length) :
    (crop n g).length = n ∧
    (∀ r ∈ crop n g, r.length = n) ∧
    (∀ i j : Nat, i < n → j < n → cellAt (crop n g) i j = cellAt g i j) ∧
    (g.length = n → (∀ r ∈ g, r.length = n) → crop n g = g) := by
  refine ⟨?_, fun r hr => ?_, fun i j hi hj => ?_, fun hlen hsq => ?_⟩
  · rw [crop, List.length_map, List.length_take]
    omega
  · rw [crop, List.mem_map] at hr
    obtain ⟨r0, hr0, hrr⟩ := hr
    have hr0g : r0 ∈ g := List.take_subset n g hr0
    rw [← hrr, List.length_take]
    have := hcols r0 hr0g
    omega
  · unfold cellAt
    rw [crop, List.getElem?_map, List.getElem?_take_of_lt hi]
    cases hgi : g[i]? with
    | none => rfl
    | some r =>
      simp only [Option.map_some']
      rw [List.getElem?_take_of_lt hj]
  · subst hlen
    rw [crop, List.take_length]
    have hte : ∀ r ∈ g, r.take g.length = r := fun r hr =>
      List.take_of_length_le (Nat.le_of_eq (hsq r hr))
    rw [List.map_congr_left hte]
    exact List.map_id g

/-- Witness for C7: cropping a 2x2 grid to dimension 2 is the
identity. -/
theorem crop_topLeft_w :
    (crop 2 ([[some (5 : ℚ), none], [some 7, some 5]] : List (List (Option ℚ)))).length = 2 ∧
    crop 2 ([[some (5 : ℚ), none], [some 7, some 5]] : List (List (Option ℚ))) =
      [[some (5 : ℚ), none], [some 7, some 5]] :=
  ⟨(crop_topLeft [[some (5 : ℚ), none], [some 7, some 5]] 2 (by decide) (by decide)).1,
    (crop_topLeft [[some (5 : ℚ), none], [some 7, some 5]] 2 (by decide) (by decide)).2.2.2
      (by decide) (by decide)⟩

/-- Counterexample for C8 as stated: the two-row mass grid of the spec's
scenario serializes to three lines, because `to_csv` keeps its default
`header=True` and first writes the column labels `0,1`; the file does
not contain exactly one line per grid row. -/
theorem csv_lines_cex :
    csvLines false true [[some (5 : ℚ), none], [some 7, some 5]] = ["0,1", "5,nan", "7,5"] ∧
    (csvLines false true [[some (5 : ℚ), none], [some 7, some 5]]).length ≠
      ([[some (5 : ℚ), none], [some 7, some 5]] : List (List (Option ℚ))).length := by
  constructor
  · rfl
  · rw [show csvLines false true [[some (5 : ℚ), none], [some 7, some 5]] =
      ["0,1", "5,nan", "7,5"] from rfl]
    decide

/-- Claim C8 (amended): the written file starts with a header row of the
default integer column labels, followed by exactly one line per grid row
in order, each line the comma-joined cells of its row with no row-index
column prepended; the claimed one-line-per-row layout would have
required passing `header=False`, which the script does not do. -/
theorem csv_header_then_rows (g : List (List (Option ℚ))) :
    (csvLines false true g).length = g.length + 1 ∧
    (csvLines false true g)[0]? =
      some (String.intercalate "," (headerLabels (g.headD []).length)) ∧
    (∀ i : Nat, (csvLines false true g)[i + 1]? =
      (g[i]?).map (fun r => String.intercalate "," (r.map renderCell))) ∧
    csvLines false false g = g.map (fun r => String.intercalate "," (r.map renderCell)) := by
  refine ⟨?_, ?_, fun i => ?_, ?_⟩
  · simp [csvLines, csvRows]
  · simp [csvLines, csvRows]
  · cases hgi : g[i]? with
    | none => simp [csvLines, csvRows, List.getElem?_map, hgi]
    | some r => simp [csvLines, csvRows, List.getElem?_map, hgi]
  · simp [csvLines, csvRows]

/-- Claim C9 (amended): the catalog handle is released exactly on the
success path — `fin.close()` is the script's last statement with no
enclosing handler, so a run ends with the handle closed if and only if
it produced its CSV output, and every faulting run terminates with the
handle still held. -/
theorem handle_closed_iff_success (cat : List Galaxy) (q : String)
    (fetch : Except ScriptError Nat) :
    (runScript cat q fetch).handleClosed = true ↔
      ∃ lines, (runScript cat q fetch).result = Except.ok lines := by
  unfold runScript
  cases h1 : resolveInd1 (cat.map Galaxy.plateifu) q with
  | error e => simp
  | ok ind1 =>
    simp only []
    cases h2 : buildMstar (cat.getD ind1 ⟨"", [], []⟩).mstarCol (cat.getD ind1 ⟨"", [], []⟩).binid with
    | none => simp
    | some mstar =>
      cases fetch with
      | error e => simp
      | ok lenx => simp

/-- Counterexample for C9 as stated: a run that faults while resolving
an absent identifier terminates with the catalog handle still open. -/
theorem handle_leak_cex :
    (runScript [⟨"8485-1901", [[0]], [5]⟩] "7443-1901" (Except.ok 1)).result =
      Except.error ScriptError.indexError ∧
    (runScript [⟨"8485-1901", [[0]], [5]⟩] "7443-1901" (Except.ok 1)).handleClosed = false :=
  ⟨rfl, rfl⟩

/-- Claim C10 (amended): when the gather-and-mask loop completes, a cell
whose bin id is negative but not the sentinel is not masked: it silently
receives the mass value `length + id` positions into the column, i.e.
`abs id` positions from the end (numpy negative-index aliasing).  The
claim's no-fault part is too strong: a negative id below the column's
negative range faults the whole gather (see the counterexample). -/
theorem negIndex_aliases (col : List ℚ) (g : List (List Int))
    (out : List (List (Option ℚ))) (h : buildMstar col g = some out)
    (i j : Nat) (id : Int) (hid : cellAt g i j = some id)
    (hneg : id < 0) (hns : id ≠ -99) :
    ∃ v : ℚ, col[((col.length : Int) + id).toNat]? = some v ∧
      cellAt out i j = some (some v) := by
  obtain ⟨hlen, hrow⟩ := buildMstar_spec col g out h
  unfold cellAt at hid
  cases hgi : g[i]? with
  | none => rw [hgi] at hid; exact absurd hid (by simp)
  | some r =>
    rw [hgi] at hid
    obtain ⟨o, ho, hbr⟩ := hrow i r hgi
    obtain ⟨⟨v, hv⟩, hcell⟩ := (buildRow_spec col r o hbr).2 j id hid
    obtain ⟨hge, hcol⟩ := npGet_neg_mem col id v hneg hv
    refine ⟨v, hcol, ?_⟩
    unfold cellAt
    rw [ho]
    show o[j]? = some (some v)
    rw [hcell, if_neg hns, hv]

/-- Witness for C10: bin id -1 with mass column `[5, 7]` silently reads
the last entry 7. -/
theorem negIndex_aliases_w :
    ∃ v : ℚ, ([(5 : ℚ), 7])[(((2 : Nat) : Int) + (-1)).toNat]? = some v ∧
      cellAt [[some (7 : ℚ)]] 0 0 = some (some v) :=
  negIndex_aliases [5, 7] [[-1]] [[some 7]] (by rfl) 0 0 (-1) (by rfl) (by decide) (by decide)

/-- Counterexample for C10 as stated: the negative non-sentinel bin id
-2 with the length-1 mass column `[5.0]` faults the gather instead of
receiving a value. -/
theorem negIndex_cex :
    buildMstar [(5 : ℚ)] [[-2]] = none ∧ (-2 : Int) < 0 ∧ (-2 : Int) ≠ -99 :=
  ⟨rfl, by decide, by decide⟩

/-- Counterexample for C2 as stated: on the spec's end-to-end scenario
(bin-id grid `[[0,-99],[1,0]]`, mass column `[5.0, 7.0]`, reference
dimension 2) the pipeline does not produce any CSV lines. -/
theorem endToEnd_cex :
    ¬ ∃ lines, (runScript [⟨"0001-01", [[0, -99], [1, 0]], [5, 7]⟩] "0001-01"
      (Except.ok 2)).result = Except.ok lines := by
  rintro ⟨lines, h⟩
  rw [show (runScript [⟨"0001-01", [[0, -99], [1, 0]], [5, 7]⟩] "0001-01"
      (Except.ok 2)).result = Except.error ScriptError.indexError from rfl] at h
  exact Except.noConfusion h

/-- Claim C2 (amended): on the spec's end-to-end scenario the run faults
with `IndexError` — numpy resolves the sentinel `-99` as a negative
index, out of bounds for the length-2 mass column — and the catalog
handle is left open.  Padding the mass column to 99 entries (so the
sentinel's gather stays in bounds and is then masked) yields exactly the
claimed grid `[[5, NaN], [7, 5]]`, written after a header line `0,1`. -/
theorem endToEnd_amended :
    runScript [⟨"0001-01", [[0, -99], [1, 0]], [5, 7]⟩] "0001-01" (Except.ok 2) =
      ⟨Except.error ScriptError.indexError, false⟩ ∧
    runScript [⟨"0001-01", [[0, -99], [1, 0]], [5, 7] ++ List.replicate 97 0⟩] "0001-01"
      (Except.ok 2) =
      ⟨Except.ok ["0,1", "5,nan", "7,5"], true⟩ :=
  ⟨rfl, rfl⟩
